import Mathlib

/-!
Shallow embedding of the business-discovery pipeline of src/main.py
(class BusinessLogic): the memoized fetch layer (fetch, line 68-81,
decorated with the aiocache cached decorator, ttl = 3600), the per-place
detail enrichment and filter chain (get_business_details, lines 83-122),
and the pagination loop (find_businesses, lines 124-168).

Conventions of the embedding:
- JSON field access by key is modelled with Option fields: none means the
  key is absent, some v means it is present with value v (so a present but
  empty string is some "", distinct from none, exactly as a Python dict).
- time.time() is passed in as an explicit integer argument now; review
  timestamps are integers.
- A Python exception that a function catches is an Except.error consumed
  where the try/except sits; an exception no try/except covers escapes as
  the Except.error of the result.
- The asyncio.gather fan-in keeps its documented guarantee: the result
  list is in task-argument order; a raised exception propagates to the
  awaiting caller.
- The page loop is driven by a finite script: the list of outcomes the
  successive search-page fetches produce, in order.  An exhausted script
  behaves like a fetch error (which line 148-150 catches and turns into a
  break).
-/

/-- Transport-level failure of one HTTP fetch (an aiohttp exception or
bad JSON body), as caught by the try/except blocks of src/main.py. -/
inductive NetworkError where
  | mk
deriving Repr, DecidableEq

deriving instance DecidableEq for Except

/-- Python exception that escapes get_business_details uncaught: the
KeyError raised by the bracket access at line 116 when the name field is
absent (that access sits outside the try/except of lines 96-101). -/
inductive PyError where
  | keyError
deriving Repr, DecidableEq

/-- The nested result object of a Place-Details response (the value of
the top-level key called result), with the fields requested at line 95.
Each field is absent (none) or present (some). -/
structure RawResult where
  name : Option String := none
  formatted_phone_number : Option String := none
  website : Option String := none
  formatted_address : Option String := none
  types : Option (List String) := none
  business_status : Option String := none
  reviews : Option (List Int) := none
deriving Repr, DecidableEq

/-- A Place-Details response body: the top-level result object may be
absent, in which case line 98 substitutes the empty dict. -/
structure DetailResponse where
  result : Option RawResult := none
deriving Repr, DecidableEq

/-- The filters dict built by the GUI (src/main.py lines 268-274): the
five boolean flags read by get_business_details. -/
structure Filters where
  without_website : Bool := false
  operational : Bool := false
  has_phone : Bool := false
  has_recent_reviews : Bool := false
  has_any_reviews : Bool := false
deriving Repr, DecidableEq

/-- The normalized business dict built at lines 115-122. -/
structure Record where
  name : String
  phone : String
  website : String
  address : String
  industry : String
  business_status : String
deriving Repr, DecidableEq

/-- A nearby-search response body: optional list of place identifiers
(the place_id of each element of results) and optional continuation
token. -/
structure SearchResponse where
  results : Option (List String) := none
  next_page_token : Option String := none
deriving Repr, DecidableEq

/-- The 30-day window of the recent-review filter, in seconds
(line 110: 30*24*60*60). -/
def recent_window : Int := 30 * 24 * 60 * 60

/-- Python truthiness of result.get with the reviews key (lines 110 and
112): falsy when the key is absent or the list is empty. -/
def reviews_truthy (r : RawResult) : Bool :=
  match r.reviews with
  | none => false
  | some l => !l.isEmpty

/-- The guarded generator of line 110: some review timestamp lies within
the last 30 days relative to now. -/
def has_recent_review (r : RawResult) (now : Int) : Bool :=
  match r.reviews with
  | none => false
  | some l => l.any (fun t => now - recent_window < t)

/-- The filter chain of lines 103-113 as one boolean: true when none of
the five early-return checks fires on the raw result object. -/
def passes_filters (f : Filters) (r : RawResult) (now : Int) : Bool :=
  if f.without_website && r.website.isSome then false
  else if f.operational && !(r.business_status == some "OPERATIONAL") then false
  else if f.has_phone && r.formatted_phone_number.isNone then false
  else if f.has_recent_reviews && !(has_recent_review r now) then false
  else if f.has_any_reviews && !(reviews_truthy r) then false
  else true

/-- The website check of line 104 in isolation: true when it does not
reject. -/
def checkWebsite (f : Filters) (r : RawResult) : Bool :=
  !(f.without_website && r.website.isSome)

/-- The operating-status check of line 106 in isolation: true when it
does not reject. -/
def checkOperational (f : Filters) (r : RawResult) : Bool :=
  !(f.operational && !(r.business_status == some "OPERATIONAL"))

/-- The phone check of line 108 in isolation: true when it does not
reject. -/
def checkPhone (f : Filters) (r : RawResult) : Bool :=
  !(f.has_phone && r.formatted_phone_number.isNone)

/-- The recent-review check of line 110 in isolation: true when it does
not reject. -/
def checkRecent (f : Filters) (r : RawResult) (now : Int) : Bool :=
  !(f.has_recent_reviews && !(has_recent_review r now))

/-- The any-review check of line 112 in isolation: true when it does not
reject. -/
def checkAny (f : Filters) (r : RawResult) : Bool :=
  !(f.has_any_reviews && !(reviews_truthy r))

/-- The five checks of lines 103-113 evaluated in the reverse order, to
compare outcomes under reordering. -/
def passes_filters_rev (f : Filters) (r : RawResult) (now : Int) : Bool :=
  if f.has_any_reviews && !(reviews_truthy r) then false
  else if f.has_recent_reviews && !(has_recent_review r now) then false
  else if f.has_phone && r.formatted_phone_number.isNone then false
  else if f.operational && !(r.business_status == some "OPERATIONAL") then false
  else if f.without_website && r.website.isSome then false
  else true

/-- Embedding of get_business_details (lines 83-122), parameterized by
the outcome of the detail fetch of line 97 (the cache layer is modelled
separately).  A caught fetch error returns None (ok none); a rejected or
filtered-out record returns None; the uncaught KeyError of line 116
(name absent from the result object after all filters passed) escapes as
Except.error. -/
def get_business_details (fetched : Except NetworkError DetailResponse)
    (f : Filters) (now : Int) : Except PyError (Option Record) :=
  match fetched with
  | Except.error _ => Except.ok none
  | Except.ok resp =>
    let r := resp.result.getD {}
    if f.without_website && r.website.isSome then Except.ok none
    else if f.operational && !(r.business_status == some "OPERATIONAL") then Except.ok none
    else if f.has_phone && r.formatted_phone_number.isNone then Except.ok none
    else if f.has_recent_reviews && !(has_recent_review r now) then Except.ok none
    else if f.has_any_reviews && !(reviews_truthy r) then Except.ok none
    else
      match r.name with
      | none => Except.error PyError.keyError
      | some n =>
        Except.ok (some
          { name := n
            phone := r.formatted_phone_number.getD "N/A"
            website := r.website.getD "N/A"
            address := r.formatted_address.getD "N/A"
            industry := String.intercalate ", " (r.types.getD [])
            business_status := r.business_status.getD "N/A" })

/-- The record produced for one place identifier when its enrichment
does not raise: the some/none outcome of get_business_details. -/
def enrichOne (fetchD : String → Except NetworkError DetailResponse)
    (f : Filters) (now : Int) (pid : String) : Option Record :=
  match get_business_details (fetchD pid) f now with
  | Except.ok v => v
  | Except.error _ => none

/-- True when the enrichment of the given place identifier does not
raise an uncaught exception. -/
def detailOkAt (fetchD : String → Except NetworkError DetailResponse)
    (f : Filters) (now : Int) (pid : String) : Bool :=
  match get_business_details (fetchD pid) f now with
  | Except.error _ => false
  | Except.ok _ => true

/-- The asyncio.gather fan-in of lines 155-156 over one page's place
identifiers: results in task order; a raised exception propagates. -/
def gatherDetails (fetchD : String → Except NetworkError DetailResponse)
    (f : Filters) (now : Int) : List String → Except PyError (List (Option Record))
  | [] => Except.ok []
  | pid :: rest =>
    match get_business_details (fetchD pid) f now with
    | Except.error e => Except.error e
    | Except.ok r =>
      match gatherDetails fetchD f now rest with
      | Except.error e => Except.error e
      | Except.ok rs => Except.ok (r :: rs)

/-- Observable events of one find_businesses run: the status callback of
line 144 (with its page number), a search-page fetch (line 147, flagged
with whether a continuation token is present), and the asyncio.sleep of
line 165 (with its duration in seconds). -/
inductive Event where
  | statusMsg (page : Nat)
  | pageFetch (tokenPresent : Bool)
  | sleepSecs (n : Nat)
deriving Repr, DecidableEq

/-- Selector for page-fetch events. -/
def isPageFetch : Event → Bool
  | Event.pageFetch _ => true
  | _ => false

/-- Number of search-page fetches in a trace. -/
def fetchCount (evs : List Event) : Nat :=
  evs.countP isPageFetch

/-- The while loop of find_businesses (lines 143-166).  Arguments mirror
the loop variables: the current next_page_token, the page counter, the
businesses accumulator; the script lists the outcomes of the successive
search-page fetches.  Every iteration emits the status event and the
page-fetch event; a caught fetch error (lines 148-150) or an exhausted
script breaks; a response without the results key breaks (lines 152-153);
a gather exception escapes uncaught; a falsy continuation token (absent
or empty, lines 162-164) breaks after accumulating; otherwise the loop
sleeps 2 seconds (line 165) and continues. -/
def find_businesses_loop (fetchD : String → Except NetworkError DetailResponse)
    (f : Filters) (now : Int) :
    Option String → Nat → List Record → List (Except NetworkError SearchResponse) →
    Except PyError (List Record) × List Event
  | tok, page, acc, [] =>
    (Except.ok acc, [Event.statusMsg page, Event.pageFetch tok.isSome])
  | tok, page, acc, Except.error _ :: _ =>
    (Except.ok acc, [Event.statusMsg page, Event.pageFetch tok.isSome])
  | tok, page, acc, Except.ok resp :: rest =>
    match resp.results with
    | none => (Except.ok acc, [Event.statusMsg page, Event.pageFetch tok.isSome])
    | some pids =>
      match gatherDetails fetchD f now pids with
      | Except.error e =>
        (Except.error e, [Event.statusMsg page, Event.pageFetch tok.isSome])
      | Except.ok opts =>
        match resp.next_page_token with
        | none =>
          (Except.ok (acc ++ opts.filterMap id),
           [Event.statusMsg page, Event.pageFetch tok.isSome])
        | some tk =>
          if tk.isEmpty then
            (Except.ok (acc ++ opts.filterMap id),
             [Event.statusMsg page, Event.pageFetch tok.isSome])
          else
            ((find_businesses_loop fetchD f now (some tk) (page + 1)
                (acc ++ opts.filterMap id) rest).1,
             Event.statusMsg page :: Event.pageFetch tok.isSome :: Event.sleepSecs 2 ::
               (find_businesses_loop fetchD f now (some tk) (page + 1)
                 (acc ++ opts.filterMap id) rest).2)

/-- Embedding of find_businesses (lines 124-168): the loop started with
no token, page counter 1 and an empty accumulator.  The first component
is the returned businesses list (or the uncaught exception that aborted
the run); the second is the event trace. -/
def find_businesses (fetchD : String → Except NetworkError DetailResponse)
    (f : Filters) (now : Int)
    (script : List (Except NetworkError SearchResponse)) :
    Except PyError (List Record) × List Event :=
  find_businesses_loop fetchD f now none 1 [] script

/-- Python truthiness of a continuation token (lines 162-164 and 64):
absent or empty is falsy. -/
def tokenTruthy : Option String → Bool
  | none => false
  | some t => !t.isEmpty

/-- A script the pager traverses in full and that ends because its final
page carries no continuation token: every earlier page is a successful
response with a result list and a truthy token; the final fetch succeeds
with no token. -/
def chainedScript : List (Except NetworkError SearchResponse) → Bool
  | [] => false
  | Except.error _ :: _ => false
  | [Except.ok resp] => resp.next_page_token.isNone
  | Except.ok resp :: rest =>
    resp.results.isSome && tokenTruthy resp.next_page_token && chainedScript rest

/-- A run prefix the pager traverses without stopping: successful pages,
each with a result list and a truthy continuation token. -/
def okPages : List (Except NetworkError SearchResponse) → Bool
  | [] => true
  | Except.error _ :: _ => false
  | Except.ok resp :: rest =>
    resp.results.isSome && tokenTruthy resp.next_page_token && okPages rest

/-- All place identifiers of a script, in page order then in-page order
(a failed or list-less page contributes nothing). -/
def scriptPids : List (Except NetworkError SearchResponse) → List String
  | [] => []
  | Except.error _ :: rest => scriptPids rest
  | Except.ok resp :: rest => resp.results.getD [] ++ scriptPids rest

/-- The build_url of lines 48-66: base nearby-search URL with optional
type and pagetoken parameters (a falsy token or type is omitted, matching
Python truthiness of the two if tests; the embedding takes them as
present-and-nonempty versus omitted). -/
def build_url (api_key location : String) (radius : Nat)
    (business_type next_page_token : Option String) : String :=
  let base := "https://maps.googleapis.com/maps/api/place/nearbysearch/json?location="
    ++ location ++ "&radius=" ++ toString radius ++ "&key=" ++ api_key
  let base :=
    match business_type with
    | some t => base ++ "&type=" ++ t
    | none => base
  match next_page_token with
  | some tk => base ++ "&pagetoken=" ++ tk
  | none => base

/-- State of the memoization cache: one entry per key, newest first,
holding the store instant and the stored body. -/
structure CacheState (α : Type) where
  entries : List (String × Int × α)
deriving Repr, DecidableEq

/-- The empty cache a fresh process starts with. -/
def emptyCache {α : Type} : CacheState α :=
  ⟨[]⟩

/-- First entry stored under a key, if any. -/
def lookupEntry {α : Type} : List (String × Int × α) → String → Option (Int × α)
  | [], _ => none
  | (u, t, v) :: rest, url => if u = url then some (t, v) else lookupEntry rest url

/-- Outcome of one call through the cached fetch: the returned body, the
cache afterwards, and the number of underlying HTTP calls made (0 on a
hit, 1 on a miss or an expired entry). -/
structure FetchResult (α : Type) where
  value : α
  cache : CacheState α
  httpCalls : Nat
deriving Repr, DecidableEq

/-- Modelled from the spec: the aiocache cached decorator applied at
src/main.py line 68 — the decorator's implementation is third-party code
not under src/, so its memoization semantics follow spec section 4.2: on
a hit (entry present, not expired) return the stored body with no HTTP
call; on a miss or expiry perform the HTTP call and store the body with
the fixed time-to-live.  The key is the call's arguments, which within
one run reduce to the URL string. -/
def fetchCached {α : Type} (ttl : Int) (http : String → α) (now : Int)
    (url : String) (st : CacheState α) : FetchResult α :=
  match lookupEntry st.entries url with
  | some (t, v) =>
    if now < t + ttl then ⟨v, st, 0⟩
    else ⟨http url, ⟨(url, now, http url) :: st.entries⟩, 1⟩
  | none => ⟨http url, ⟨(url, now, http url) :: st.entries⟩, 1⟩

/-- The fetch method of lines 68-81: the cached fetch with the decorator's
ttl of 3600 seconds. -/
def fetch {α : Type} (http : String → α) (now : Int) (url : String)
    (st : CacheState α) : FetchResult α :=
  fetchCached 3600 http now url st

/-- The search-page fetch issued by the pager at line 147: it calls the
same memoized fetch method of line 68. -/
def searchPageFetch {α : Type} (http : String → α) (now : Int) (url : String)
    (st : CacheState α) : FetchResult α :=
  fetch http now url st

/-- A sequence of calls through the cached fetch for one URL at the given
instants: final cache and total number of underlying HTTP calls. -/
def callTimes {α : Type} (http : String → α) (url : String) :
    List Int → CacheState α → CacheState α × Nat
  | [], st => (st, 0)
  | t :: ts, st =>
    let r := fetch http t url st
    let p := callTimes http url ts r.cache
    (p.1, r.httpCalls + p.2)

/-- Shape of the tail of a find_businesses trace after the first two
events: zero or more continuation blocks, each a 2-second sleep, then a
status notification, then a token-bearing page fetch. -/
inductive GoodTail : List Event → Prop where
  | nil : GoodTail []
  | cont (p : Nat) (rest : List Event) : GoodTail rest →
      GoodTail (Event.sleepSecs 2 :: Event.statusMsg p :: Event.pageFetch true :: rest)

/-- Filter set with every flag off. -/
def f0 : Filters :=
  {}

/-- Filter set with only the operational flag on. -/
def fOp : Filters :=
  { operational := true }

/-- Filter set with only the without-website flag on. -/
def fWeb : Filters :=
  { without_website := true }

/-- Raw detail result carrying only a name: no status, no website. -/
def rawAcme : RawResult :=
  { name := some "Acme" }

/-- Detail response whose result object has a name but no
business_status field. -/
def respNoStatus : DetailResponse :=
  { result := some rawAcme }

/-- Raw detail result with a name and a present but empty website
field. -/
def rawEmptyWeb : RawResult :=
  { name := some "Acme", website := some "" }

/-- Detail response whose result object has a present but empty website
field. -/
def respEmptyWeb : DetailResponse :=
  { result := some rawEmptyWeb }

/-- Detail response whose result object is present but lacks the name
field. -/
def respNoName : DetailResponse :=
  { result := some {} }

/-- The record get_business_details builds from rawAcme. -/
def recAcme : Record :=
  { name := "Acme", phone := "N/A", website := "N/A", address := "N/A",
    industry := "", business_status := "N/A" }

/-- The record get_business_details builds from rawEmptyWeb. -/
def recAcmeW : Record :=
  { name := "Acme", phone := "N/A", website := "", address := "N/A",
    industry := "", business_status := "N/A" }

/-- Detail-fetch stub that always succeeds with respNoStatus. -/
def d3 : String → Except NetworkError DetailResponse :=
  fun _ => Except.ok respNoStatus

/-- One successful search page with one place id and a continuation
token: the prefix the pager traverses before the scripted page error. -/
def pre3 : List (Except NetworkError SearchResponse) :=
  [Except.ok { results := some ["p1"], next_page_token := some "tok" }]

/-- Script whose second page fetch raises a network error. -/
def s3 : List (Except NetworkError SearchResponse) :=
  pre3 ++ [Except.error NetworkError.mk]

/-- Detail-fetch stub that always fails with a network error (every
enrichment is caught and skipped). -/
def d8 : String → Except NetworkError DetailResponse :=
  fun _ => Except.error NetworkError.mk

/-- Two successful pages: the first carries a token, the last does
not. -/
def s8 : List (Except NetworkError SearchResponse) :=
  [Except.ok { results := some ["a", "b"], next_page_token := some "t" },
   Except.ok { results := some ["c"], next_page_token := none }]

/-- Two successful pages with empty result lists; the first carries a
token. -/
def s9 : List (Except NetworkError SearchResponse) :=
  [Except.ok { results := some [], next_page_token := some "t" },
   Except.ok { results := some [], next_page_token := none }]

/-- Filter set with only the phone flag on. -/
def f10 : Filters :=
  { has_phone := true }

/-- Detail-fetch stub: every place resolves to a named result; place b
has no phone field, the others do. -/
def d10 : String → Except NetworkError DetailResponse :=
  fun pid => Except.ok
    { result := some
        { name := some pid
          formatted_phone_number := if pid = "b" then none else some "555" } }

/-- One page with three place ids, no continuation token. -/
def s10 : List (Except NetworkError SearchResponse) :=
  [Except.ok { results := some ["a", "b", "c"], next_page_token := none }]

/-- Constant HTTP body used in the cache scenarios. -/
def httpConst : String → Nat :=
  fun _ => 42

/-- The initial-page search URL of a concrete request, as build_url
produces it. -/
def searchUrl0 : String :=
  build_url "KEY" "39.95,-75.16" 10000 (some "plumber") none

/-- A cache already holding the body 5 for URL u, stored at instant 0. -/
def cacheW : CacheState Nat :=
  ⟨[("u", 0, 5)]⟩

/-- The sequential early-return chain of lines 103-113 equals the plain
conjunction of the five isolated checks. -/
theorem passes_filters_eq_checks (f : Filters) (r : RawResult) (now : Int) :
    passes_filters f r now =
      (checkWebsite f r && checkOperational f r && checkPhone f r &&
       checkRecent f r now && checkAny f r) := by
  simp only [passes_filters, checkWebsite, checkOperational, checkPhone,
    checkRecent, checkAny]
  cases h1 : (f.without_website && r.website.isSome) <;>
  cases h2 : (f.operational && !(r.business_status == some "OPERATIONAL")) <;>
  cases h3 : (f.has_phone && r.formatted_phone_number.isNone) <;>
  cases h4 : (f.has_recent_reviews && !(has_recent_review r now)) <;>
  cases h5 : (f.has_any_reviews && !(reviews_truthy r)) <;>
  simp [h1, h2, h3, h4, h5]

/-- The reversed chain also equals the same plain conjunction. -/
theorem passes_filters_rev_eq_checks (f : Filters) (r : RawResult) (now : Int) :
    passes_filters_rev f r now =
      (checkWebsite f r && checkOperational f r && checkPhone f r &&
       checkRecent f r now && checkAny f r) := by
  simp only [passes_filters_rev, checkWebsite, checkOperational, checkPhone,
    checkRecent, checkAny]
  cases h1 : (f.without_website && r.website.isSome) <;>
  cases h2 : (f.operational && !(r.business_status == some "OPERATIONAL")) <;>
  cases h3 : (f.has_phone && r.formatted_phone_number.isNone) <;>
  cases h4 : (f.has_recent_reviews && !(has_recent_review r now)) <;>
  cases h5 : (f.has_any_reviews && !(reviews_truthy r)) <;>
  simp [h1, h2, h3, h4, h5]

/-- A raw result the filter chain rejects makes get_business_details
return None (the early returns of lines 104-113). -/
theorem get_details_rejects (resp : DetailResponse) (f : Filters) (now : Int)
    (h : passes_filters f (resp.result.getD {}) now = false) :
    get_business_details (Except.ok resp) f now = Except.ok none := by
  simp only [passes_filters] at h
  simp only [get_business_details]
  cases h1 : (f.without_website && (resp.result.getD {}).website.isSome) <;>
  cases h2 : (f.operational && !((resp.result.getD {}).business_status == some "OPERATIONAL")) <;>
  cases h3 : (f.has_phone && (resp.result.getD {}).formatted_phone_number.isNone) <;>
  cases h4 : (f.has_recent_reviews && !(has_recent_review (resp.result.getD {}) now)) <;>
  cases h5 : (f.has_any_reviews && !(reviews_truthy (resp.result.getD {}))) <;>
  simp [h1, h2, h3, h4, h5] at h ⊢

/-- C6: the accept/reject decision of the filter chain is a pure function
of the raw result, the filter set and the call instant; it equals the
conjunction of the five isolated checks (each active flag an independent
necessary condition, an inactive flag no constraint), and evaluating the
five checks in the reverse order yields the same decision. -/
theorem filter_eval_conjunction_order_independent (f : Filters) (r : RawResult) (now : Int) :
    passes_filters f r now =
      (checkWebsite f r && checkOperational f r && checkPhone f r &&
       checkRecent f r now && checkAny f r) ∧
    passes_filters f r now = passes_filters_rev f r now := by
  refine ⟨passes_filters_eq_checks f r now, ?_⟩
  rw [passes_filters_eq_checks, passes_filters_rev_eq_checks]

/-- C1 counterexample: with only the operationalOnly flag active, a
detail response whose result object has no business_status field at all
is rejected (line 106 compares None with OPERATIONAL), even though the
same response is accepted with no flags active. -/
theorem operational_absent_status_rejected_cex :
    get_business_details (Except.ok respNoStatus) fOp 0 = Except.ok none ∧
    respNoStatus = { result := some rawAcme } ∧ rawAcme.business_status = none ∧
    get_business_details (Except.ok respNoStatus) f0 0 = Except.ok (some recAcme) := by
  decide

/-- C1 (amended): with the operationalOnly flag active the status check
passes exactly when the operating-status field is present and equals
OPERATIONAL; any record whose status field is absent or different is
rejected by the chain. -/
theorem operational_filter_status_iff (f : Filters) (r : RawResult) (now : Int)
    (hop : f.operational = true) :
    (checkOperational f r = true ↔ r.business_status = some "OPERATIONAL") ∧
    (r.business_status ≠ some "OPERATIONAL" → passes_filters f r now = false) := by
  constructor
  · simp [checkOperational, hop]
  · intro hne
    rw [passes_filters_eq_checks]
    have hco : checkOperational f r = false := by
      simp [checkOperational, hop, hne]
    simp [hco]

/-- Witness for operational_filter_status_iff at the concrete filter set
fOp and the status-less raw result rawAcme. -/
theorem operational_filter_status_iff_witness :
    (checkOperational fOp rawAcme = true ↔ rawAcme.business_status = some "OPERATIONAL") ∧
    (rawAcme.business_status ≠ some "OPERATIONAL" → passes_filters fOp rawAcme 0 = false) :=
  operational_filter_status_iff fOp rawAcme 0 rfl

/-- C5 counterexample: with only the withoutWebsite flag active, a detail
response whose website field is present but empty is rejected (line 104
tests key presence, not non-emptiness), even though the same response is
accepted with no flags active. -/
theorem empty_website_rejected_cex :
    get_business_details (Except.ok respEmptyWeb) fWeb 0 = Except.ok none ∧
    respEmptyWeb = { result := some rawEmptyWeb } ∧ rawEmptyWeb.website = some "" ∧
    get_business_details (Except.ok respEmptyWeb) f0 0 = Except.ok (some recAcmeW) := by
  decide

/-- C5 (amended): with the withoutWebsite flag active the website check
passes exactly when the website field is absent; a present website field
rejects regardless of its value, an empty one included. -/
theorem without_website_presence_iff (f : Filters) (r : RawResult) (now : Int)
    (hw : f.without_website = true) :
    (checkWebsite f r = true ↔ r.website = none) ∧
    (r.website.isSome = true → passes_filters f r now = false) := by
  constructor
  · cases h : r.website <;> simp [checkWebsite, hw, h]
  · intro hs
    rw [passes_filters_eq_checks]
    have hcw : checkWebsite f r = false := by
      simp [checkWebsite, hw, hs]
    simp [hcw]

/-- Witness for without_website_presence_iff at the concrete filter set
fWeb and the empty-website raw result rawEmptyWeb. -/
theorem without_website_presence_iff_witness :
    (checkWebsite fWeb rawEmptyWeb = true ↔ rawEmptyWeb.website = none) ∧
    (rawEmptyWeb.website.isSome = true → passes_filters fWeb rawEmptyWeb 0 = false) :=
  without_website_presence_iff fWeb rawEmptyWeb 0 rfl

/-- C2: a detail response whose result object passes every active check
but lacks the name field makes get_business_details raise the KeyError of
line 116 (outside any try/except), and the exception propagates through
the gather of line 156 and aborts the whole find_businesses run instead
of skipping the one item. -/
theorem missing_name_aborts_run :
    get_business_details (Except.ok respNoName) f0 0 = Except.error PyError.keyError ∧
    (find_businesses (fun _ => Except.ok respNoName) f0 0
      [Except.ok { results := some ["p1"], next_page_token := none }]).1
      = Except.error PyError.keyError := by
  decide

/-- An enrichment that does not raise is exactly the ok outcome holding
its enrichOne value. -/
theorem detailOkAt_spec (fetchD : String → Except NetworkError DetailResponse)
    (f : Filters) (now : Int) (pid : String)
    (h : detailOkAt fetchD f now pid = true) :
    get_business_details (fetchD pid) f now = Except.ok (enrichOne fetchD f now pid) := by
  cases hg : get_business_details (fetchD pid) f now with
  | error e => simp [detailOkAt, hg] at h
  | ok v => simp [enrichOne, hg]

/-- When no enrichment of the page raises, the gather returns the
per-place outcomes in task order. -/
theorem gather_ok (fetchD : String → Except NetworkError DetailResponse)
    (f : Filters) (now : Int) :
    ∀ pids : List String, pids.all (detailOkAt fetchD f now) = true →
    gatherDetails fetchD f now pids = Except.ok (pids.map (enrichOne fetchD f now)) := by
  intro pids
  induction pids with
  | nil => intro _; rfl
  | cons pid rest ih =>
    intro h
    rw [List.all_cons, Bool.and_eq_true] at h
    have h1 := detailOkAt_spec fetchD f now pid h.1
    simp [gatherDetails, h1, ih h.2]

/-- Discarding the None outcomes of the in-order per-place map is the
in-order filterMap of the enrichment. -/
theorem filterMap_id_map {α β : Type} (g : α → Option β) (l : List α) :
    (l.map g).filterMap id = l.filterMap g := by
  induction l with
  | nil => rfl
  | cons a l ih => cases h : g a <;> simp [List.filterMap_cons, h, ih]

/-- A truthy continuation token is a present, non-empty one. -/
theorem tokenTruthy_spec (o : Option String) (h : tokenTruthy o = true) :
    ∃ tk, o = some tk ∧ tk.isEmpty = false := by
  cases o with
  | none => simp [tokenTruthy] at h
  | some tk =>
    refine ⟨tk, rfl, ?_⟩
    simpa [tokenTruthy] using h

/-- Over a chained script the loop returns the accumulator extended with
the in-order enrichment of every page's place ids, and performs exactly
one search-page fetch per scripted page. -/
theorem loop_chained (fetchD : String → Except NetworkError DetailResponse)
    (f : Filters) (now : Int) :
    ∀ script : List (Except NetworkError SearchResponse),
    ∀ tok : Option String, ∀ page : Nat, ∀ acc : List Record,
    chainedScript script = true →
    (scriptPids script).all (detailOkAt fetchD f now) = true →
    (find_businesses_loop fetchD f now tok page acc script).1 =
      Except.ok (acc ++ (scriptPids script).filterMap (enrichOne fetchD f now)) ∧
    fetchCount (find_businesses_loop fetchD f now tok page acc script).2 = script.length := by
  intro script
  induction script with
  | nil => intro tok page acc hc _; simp [chainedScript] at hc
  | cons hd rest ih =>
    intro tok page acc hc hall
    cases hd with
    | error e => simp [chainedScript] at hc
    | ok resp =>
      cases rest with
      | nil =>
        have htok : resp.next_page_token = none := by
          simpa [chainedScript, Option.isNone_iff_eq_none] using hc
        cases hres : resp.results with
        | none =>
          simp [find_businesses_loop, hres, scriptPids, fetchCount,
            List.countP_cons, isPageFetch]
        | some pids =>
          have hall' : pids.all (detailOkAt fetchD f now) = true := by
            simpa [scriptPids, hres] using hall
          have hg := gather_ok fetchD f now pids hall'
          simp [find_businesses_loop, hres, hg, htok, scriptPids,
            filterMap_id_map, fetchCount, List.countP_cons, isPageFetch]
      | cons r2 rest2 =>
        rw [show chainedScript (Except.ok resp :: r2 :: rest2) =
              (resp.results.isSome && tokenTruthy resp.next_page_token &&
               chainedScript (r2 :: rest2)) from rfl] at hc
        rw [Bool.and_eq_true, Bool.and_eq_true] at hc
        obtain ⟨⟨hres', htok'⟩, hrest⟩ := hc
        obtain ⟨pids, hres⟩ := Option.isSome_iff_exists.mp hres'
        obtain ⟨tk, htk, htke⟩ := tokenTruthy_spec _ htok'
        have hallp : pids.all (detailOkAt fetchD f now) = true ∧
            (scriptPids (r2 :: rest2)).all (detailOkAt fetchD f now) = true := by
          rw [scriptPids, hres, Option.getD_some, List.all_append,
            Bool.and_eq_true] at hall
          exact hall
        have hg := gather_ok fetchD f now pids hallp.1
        have hrec := ih (some tk) (page + 1)
          (acc ++ (pids.map (enrichOne fetchD f now)).filterMap id) hrest hallp.2
        constructor
        · rw [find_businesses_loop]
          simp only [hres, hg, htk, htke, if_neg Bool.false_ne_true]
          rw [hrec.1]
          simp [scriptPids, hres, filterMap_id_map, List.filterMap_append]
        · rw [find_businesses_loop]
          simp only [hres, hg, htk, htke, if_neg Bool.false_ne_true]
          simp [fetchCount, List.countP_cons, isPageFetch] at hrec ⊢
          omega

/-- When a scripted page fetch fails after a traversable prefix, the loop
breaks (lines 148-150) and returns the records accumulated so far as a
normal value; nothing of the error reaches the result. -/
theorem loop_error_page (fetchD : String → Except NetworkError DetailResponse)
    (f : Filters) (now : Int) :
    ∀ pre : List (Except NetworkError SearchResponse),
    ∀ tok : Option String, ∀ page : Nat, ∀ acc : List Record,
    ∀ e : NetworkError, ∀ rest : List (Except NetworkError SearchResponse),
    okPages pre = true →
    (scriptPids pre).all (detailOkAt fetchD f now) = true →
    (find_businesses_loop fetchD f now tok page acc (pre ++ Except.error e :: rest)).1 =
      Except.ok (acc ++ (scriptPids pre).filterMap (enrichOne fetchD f now)) := by
  intro pre
  induction pre with
  | nil =>
    intro tok page acc e rest _ _
    simp [find_businesses_loop, scriptPids]
  | cons hd pre1 ih =>
    intro tok page acc e rest hok hall
    cases hd with
    | error e2 => simp [okPages] at hok
    | ok resp =>
      rw [show okPages (Except.ok resp :: pre1) =
            (resp.results.isSome && tokenTruthy resp.next_page_token &&
             okPages pre1) from rfl, Bool.and_eq_true, Bool.and_eq_true] at hok
      obtain ⟨⟨hres', htok'⟩, hrest⟩ := hok
      obtain ⟨pids, hres⟩ := Option.isSome_iff_exists.mp hres'
      obtain ⟨tk, htk, htke⟩ := tokenTruthy_spec _ htok'
      rw [scriptPids, hres, Option.getD_some, List.all_append,
        Bool.and_eq_true] at hall
      have hg := gather_ok fetchD f now pids hall.1
      rw [List.cons_append, find_businesses_loop]
      simp only [hres, hg, htk, htke, if_neg Bool.false_ne_true]
      rw [ih (some tk) (page + 1)
        (acc ++ (pids.map (enrichOne fetchD f now)).filterMap id) e rest hrest hall.2]
      simp [scriptPids, hres, filterMap_id_map, List.filterMap_append]

/-- C3 counterexample: a run whose first page succeeds with one accepted
record and whose second page fetch raises a network error returns the
partial records as a plain successful value — no error accompanies them
(the except block of lines 148-150 only prints and breaks). -/
theorem page_error_returns_ok_cex :
    (find_businesses d3 f0 0 s3).1 = Except.ok [recAcme] ∧
    s3.getLast? = some (Except.error NetworkError.mk) := by
  decide

/-- C3 (amended): when the fetch of a search page raises a network
error, find_businesses stops there and returns the records accumulated
from the earlier pages as a normal successful result; the error is only
logged, never surfaced to the caller. -/
theorem page_error_returns_accumulated
    (fetchD : String → Except NetworkError DetailResponse) (f : Filters) (now : Int)
    (pre : List (Except NetworkError SearchResponse)) (e : NetworkError)
    (rest : List (Except NetworkError SearchResponse))
    (hok : okPages pre = true)
    (hall : (scriptPids pre).all (detailOkAt fetchD f now) = true) :
    (find_businesses fetchD f now (pre ++ Except.error e :: rest)).1 =
      Except.ok ((scriptPids pre).filterMap (enrichOne fetchD f now)) := by
  have h := loop_error_page fetchD f now pre none 1 [] e rest hok hall
  simpa [find_businesses] using h

/-- Witness for page_error_returns_accumulated at the concrete one-page
prefix pre3 followed by a scripted network error. -/
theorem page_error_returns_accumulated_witness :
    (find_businesses d3 f0 0 (pre3 ++ Except.error NetworkError.mk :: [])).1 =
      Except.ok ((scriptPids pre3).filterMap (enrichOne d3 f0 0)) :=
  page_error_returns_accumulated d3 f0 0 pre3 NetworkError.mk [] (by decide) (by decide)

/-- C8: over any finite script of successful pages chained by tokens and
ending in a token-less page, the loop performs exactly one search-page
fetch per scripted page and ends by returning normally (the Done outcome
of the pager); and a successful response with no result list at all also
ends the run normally with an empty outcome, not an error. -/
theorem pagination_terminates_done
    (fetchD : String → Except NetworkError DetailResponse) (f : Filters) (now : Int) :
    (∀ script : List (Except NetworkError SearchResponse),
       chainedScript script = true →
       (scriptPids script).all (detailOkAt fetchD f now) = true →
       (∃ recs, (find_businesses fetchD f now script).1 = Except.ok recs) ∧
       fetchCount (find_businesses fetchD f now script).2 = script.length) ∧
    (∀ resp : SearchResponse, resp.results = none →
       (find_businesses fetchD f now [Except.ok resp]).1 = Except.ok [] ∧
       fetchCount (find_businesses fetchD f now [Except.ok resp]).2 = 1) := by
  constructor
  · intro script hc hall
    obtain ⟨h1, h2⟩ := loop_chained fetchD f now script none 1 [] hc hall
    exact ⟨⟨_, h1⟩, h2⟩
  · intro resp hres
    simp [find_businesses, find_businesses_loop, hres, fetchCount,
      List.countP_cons, isPageFetch]

/-- Witness for pagination_terminates_done at the concrete two-page
script s8 (and, for the second part, a response without a result
list). -/
theorem pagination_terminates_done_witness :
    ((∃ recs, (find_businesses d8 f0 0 s8).1 = Except.ok recs) ∧
     fetchCount (find_businesses d8 f0 0 s8).2 = s8.length) ∧
    ((find_businesses d8 f0 0 [Except.ok ({} : SearchResponse)]).1 = Except.ok [] ∧
     fetchCount (find_businesses d8 f0 0 [Except.ok ({} : SearchResponse)]).2 = 1) :=
  ⟨(pagination_terminates_done d8 f0 0).1 s8 (by decide) (by decide),
   (pagination_terminates_done d8 f0 0).2 {} rfl⟩

/-- C10: over a chained script the returned list is exactly the in-order
filterMap of the enrichment over the concatenation of the pages' place
identifiers: the gather fan-in keeps task launch order, so the output
order is fully determined by the pages' place-id order. -/
theorem page_order_preserved
    (fetchD : String → Except NetworkError DetailResponse) (f : Filters) (now : Int)
    (script : List (Except NetworkError SearchResponse))
    (hc : chainedScript script = true)
    (hall : (scriptPids script).all (detailOkAt fetchD f now) = true) :
    (find_businesses fetchD f now script).1 =
      Except.ok ((scriptPids script).filterMap (enrichOne fetchD f now)) := by
  have h := (loop_chained fetchD f now script none 1 [] hc hall).1
  simpa [find_businesses] using h

/-- Witness for page_order_preserved at the concrete one-page script s10
whose middle place is rejected by the phone filter. -/
theorem page_order_preserved_witness :
    (find_businesses d10 f10 0 s10).1 =
      Except.ok ((scriptPids s10).filterMap (enrichOne d10 f10 0)) :=
  page_order_preserved d10 f10 0 s10 (by decide) (by decide)

/-- Every loop trace starts with the status notification and the page
fetch of the current page, and its remainder is a sequence of
continuation blocks: a 2-second sleep, then the next status
notification, then a token-bearing page fetch. -/
theorem loop_trace_shape (fetchD : String → Except NetworkError DetailResponse)
    (f : Filters) (now : Int) :
    ∀ script : List (Except NetworkError SearchResponse),
    ∀ tok : Option String, ∀ page : Nat, ∀ acc : List Record,
    ∃ tail, (find_businesses_loop fetchD f now tok page acc script).2 =
      Event.statusMsg page :: Event.pageFetch tok.isSome :: tail ∧ GoodTail tail := by
  intro script
  induction script with
  | nil => intro tok page acc; exact ⟨[], rfl, GoodTail.nil⟩
  | cons hd rest ih =>
    intro tok page acc
    cases hd with
    | error e => exact ⟨[], rfl, GoodTail.nil⟩
    | ok resp =>
      cases hres : resp.results with
      | none => exact ⟨[], by simp [find_businesses_loop, hres], GoodTail.nil⟩
      | some pids =>
        cases hg : gatherDetails fetchD f now pids with
        | error e =>
          exact ⟨[], by simp [find_businesses_loop, hres, hg], GoodTail.nil⟩
        | ok opts =>
          cases htk : resp.next_page_token with
          | none =>
            exact ⟨[], by simp [find_businesses_loop, hres, hg, htk], GoodTail.nil⟩
          | some tk =>
            cases htke : tk.isEmpty with
            | true =>
              exact ⟨[], by simp [find_businesses_loop, hres, hg, htk, htke],
                GoodTail.nil⟩
            | false =>
              obtain ⟨tail1, htail1, hgood1⟩ :=
                ih (some tk) (page + 1) (acc ++ opts.filterMap id)
              refine ⟨Event.sleepSecs 2 :: Event.statusMsg (page + 1) ::
                Event.pageFetch true :: tail1, ?_, GoodTail.cont _ _ hgood1⟩
              rw [find_businesses_loop]
              simp only [hres, hg, htk, htke, if_neg Bool.false_ne_true]
              rw [htail1]
              rfl

/-- In a continuation tail, whatever comes before a token-bearing page
fetch ends with the 2-second sleep and the status notification of that
page. -/
theorem goodTail_before_fetch {T : List Event} (h : GoodTail T) :
    ∀ pre post : List Event, T = pre ++ Event.pageFetch true :: post →
    ∃ q p, pre = q ++ [Event.sleepSecs 2, Event.statusMsg p] := by
  induction h with
  | nil =>
    intro pre post heq
    exact absurd heq.symm (by simp)
  | cont p rest hrest ih =>
    intro pre post heq
    cases pre with
    | nil => simp at heq
    | cons a pre1 =>
      cases pre1 with
      | nil => simp at heq
      | cons b pre2 =>
        cases pre2 with
        | nil =>
          simp only [List.cons_append, List.nil_append, List.cons.injEq] at heq
          exact ⟨[], p, by simp [heq.1, heq.2.1]⟩
        | cons c pre3 =>
          simp only [List.cons_append, List.cons.injEq] at heq
          obtain ⟨ha, hb, hc, htl⟩ := heq
          obtain ⟨q, p1, hq⟩ := ih pre3 post htl
          exact ⟨a :: b :: c :: q, p1, by simp [hq]⟩

/-- A continuation tail never holds a token-less page fetch. -/
theorem goodTail_no_false {T : List Event} (h : GoodTail T) :
    Event.pageFetch false ∉ T := by
  induction h with
  | nil => simp
  | cont p rest hrest ih => simp [ih]

/-- C9: in every run trace, a token-bearing page request is immediately
preceded by the fixed 2-second sleep of line 165 followed only by the
status notification of that page; and the only token-less page request
is the very first one, preceded by nothing but the first status
notification — so no delay precedes it. -/
theorem token_page_delay (fetchD : String → Except NetworkError DetailResponse)
    (f : Filters) (now : Int) (script : List (Except NetworkError SearchResponse)) :
    (∀ pre post : List Event,
       (find_businesses fetchD f now script).2 = pre ++ Event.pageFetch true :: post →
       ∃ q p, pre = q ++ [Event.sleepSecs 2, Event.statusMsg p]) ∧
    (∀ pre post : List Event,
       (find_businesses fetchD f now script).2 = pre ++ Event.pageFetch false :: post →
       pre = [Event.statusMsg 1]) := by
  obtain ⟨tail, htr, hgood⟩ := loop_trace_shape fetchD f now script none 1 []
  have htr' : (find_businesses fetchD f now script).2 =
      Event.statusMsg 1 :: Event.pageFetch false :: tail := htr
  constructor
  · intro pre post heq
    rw [htr'] at heq
    cases pre with
    | nil => simp at heq
    | cons a pre1 =>
      cases pre1 with
      | nil => simp at heq
      | cons b pre2 =>
        simp only [List.cons_append, List.cons.injEq] at heq
        obtain ⟨ha, hb, htl⟩ := heq
        obtain ⟨q, p1, hq⟩ := goodTail_before_fetch hgood pre2 post htl
        exact ⟨a :: b :: q, p1, by simp [hq]⟩
  · intro pre post heq
    rw [htr'] at heq
    cases pre with
    | nil => simp at heq
    | cons a pre1 =>
      cases pre1 with
      | nil =>
        simp only [List.cons_append, List.nil_append, List.cons.injEq] at heq
        rw [heq.1]
      | cons b pre2 =>
        simp only [List.cons_append, List.cons.injEq] at heq
        exact absurd (heq.2.2 ▸ List.mem_append_right pre2 (List.mem_cons_self _ _))
          (goodTail_no_false hgood)

/-- Witness for token_page_delay at the concrete two-page script s9: the
token-bearing second page fetch sits right after a 2-second sleep and
the page-2 status notification. -/
theorem token_page_delay_witness :
    ∃ q p, [Event.statusMsg 1, Event.pageFetch false, Event.sleepSecs 2,
      Event.statusMsg 2] = q ++ [Event.sleepSecs 2, Event.statusMsg p] :=
  (token_page_delay d8 f0 0 s9).1
    [Event.statusMsg 1, Event.pageFetch false, Event.sleepSecs 2, Event.statusMsg 2]
    [] (by decide)

/-- C4 counterexample: the search-page fetch performed by the pager is
the memoized fetch method — the first fetch of a search URL populates
the cache, and a later fetch of the identical search URL within the TTL
returns the stored body with zero underlying HTTP calls. -/
theorem search_fetch_uses_cache_cex :
    (searchPageFetch httpConst 0 searchUrl0 (emptyCache : CacheState Nat)).cache.entries ≠ [] ∧
    (searchPageFetch httpConst 10 searchUrl0
       (searchPageFetch httpConst 0 searchUrl0 emptyCache).cache).httpCalls = 0 ∧
    (searchPageFetch httpConst 10 searchUrl0
       (searchPageFetch httpConst 0 searchUrl0 emptyCache).cache).value =
      (searchPageFetch httpConst 0 searchUrl0 (emptyCache : CacheState Nat)).value := by
  decide

/-- C4 (amended): search-page requests go through the same memoization
cache as detail requests — on a cached, unexpired URL the pager's fetch
returns the stored body with no underlying HTTP call and leaves the
cache unchanged; on an uncached URL it performs one HTTP call and
populates the cache under that URL. -/
theorem search_page_fetch_memoized {α : Type} (http : String → α) (now : Int)
    (url : String) (st : CacheState α) :
    (∀ t v, lookupEntry st.entries url = some (t, v) → now < t + 3600 →
       searchPageFetch http now url st = ⟨v, st, 0⟩) ∧
    (lookupEntry st.entries url = none →
       searchPageFetch http now url st =
         ⟨http url, ⟨(url, now, http url) :: st.entries⟩, 1⟩) := by
  constructor
  · intro t v hl hlt
    simp [searchPageFetch, fetch, fetchCached, hl, hlt]
  · intro hl
    simp [searchPageFetch, fetch, fetchCached, hl]

/-- Witness for search_page_fetch_memoized at the concrete one-entry
cache cacheW: a hit within the TTL. -/
theorem search_page_fetch_memoized_witness :
    searchPageFetch (fun _ => (9 : Nat)) 10 "u" cacheW = ⟨5, cacheW, 0⟩ :=
  (search_page_fetch_memoized (fun _ => (9 : Nat)) 10 "u" cacheW).1 0 5
    (by decide) (by decide)

/-- The very first cached fetch of a URL misses and stores the body. -/
theorem fetch_first (http : String → α) (t0 : Int) (url : String) :
    fetch http t0 url (emptyCache : CacheState α) =
      ⟨http url, ⟨[(url, t0, http url)]⟩, 1⟩ := by
  simp [fetch, fetchCached, emptyCache, lookupEntry]

/-- A cached fetch against a one-entry cache for the same URL within the
TTL is a hit: stored body, unchanged cache, no HTTP call. -/
theorem fetch_hit (http : String → α) (t0 t : Int) (url : String) (v : α)
    (hlt : t < t0 + 3600) :
    fetch http t url (⟨[(url, t0, v)]⟩ : CacheState α) =
      ⟨v, ⟨[(url, t0, v)]⟩, 0⟩ := by
  simp [fetch, fetchCached, lookupEntry, hlt]

/-- Repeated hits against a one-entry cache issue no HTTP call at all. -/
theorem callTimes_hits (http : String → α) (url : String) (t0 : Int) (v : α) :
    ∀ ts : List Int, (∀ t ∈ ts, t < t0 + 3600) →
    callTimes http url ts (⟨[(url, t0, v)]⟩ : CacheState α) =
      ((⟨[(url, t0, v)]⟩ : CacheState α), 0) := by
  intro ts
  induction ts with
  | nil => intro _; rfl
  | cons t ts ih =>
    intro h
    rw [callTimes, fetch_hit http t0 t url v (h t (List.mem_cons_self t ts))]
    rw [ih (fun x hx => h x (List.mem_cons_of_mem t hx))]
    rfl

/-- C7: cache idempotence with the fixed 3600-second TTL — starting from
an empty cache, any N calls for one URL whose later instants all fall
inside the TTL window of the first issue exactly one underlying HTTP
call in total; any further call inside the window returns the stored
body with no HTTP call; and a call at or past the end of the window
issues a fresh underlying HTTP call. -/
theorem fetch_cached_idempotent_ttl {α : Type} (http : String → α) (url : String)
    (t0 : Int) (ts : List Int)
    (hin : ∀ t ∈ ts, t0 ≤ t ∧ t < t0 + 3600) :
    (callTimes http url (t0 :: ts) (emptyCache : CacheState α)).2 = 1 ∧
    (∀ t : Int, t0 ≤ t → t < t0 + 3600 →
       fetch http t url (fetch http t0 url (emptyCache : CacheState α)).cache =
         ⟨http url, (fetch http t0 url (emptyCache : CacheState α)).cache, 0⟩) ∧
    (∀ t : Int, t0 + 3600 ≤ t →
       (fetch http t url (fetch http t0 url (emptyCache : CacheState α)).cache).httpCalls = 1) := by
  refine ⟨?_, ?_, ?_⟩
  · rw [callTimes, fetch_first]
    rw [callTimes_hits http url t0 (http url) ts (fun t ht => (hin t ht).2)]
    rfl
  · intro t _ hlt
    rw [fetch_first, fetch_hit http t0 t url (http url) hlt]
  · intro t hge
    rw [fetch_first]
    have hnot : ¬ t < t0 + 3600 := by omega
    simp [fetch, fetchCached, lookupEntry, hnot]

/-- Witness for fetch_cached_idempotent_ttl at a concrete URL, three
calls at instants 0, 1, 2 and an expiry probe at instant 3600. -/
theorem fetch_cached_idempotent_ttl_witness :
    (callTimes (fun _ => (7 : Nat)) "u" [0, 1, 2] (emptyCache : CacheState Nat)).2 = 1 ∧
    (fetch (fun _ => (7 : Nat)) 3600 "u"
       (fetch (fun _ => (7 : Nat)) 0 "u" (emptyCache : CacheState Nat)).cache).httpCalls = 1 :=
  ⟨(fetch_cached_idempotent_ttl (fun _ => (7 : Nat)) "u" 0 [1, 2] (by decide)).1,
   (fetch_cached_idempotent_ttl (fun _ => (7 : Nat)) "u" 0 [1, 2] (by decide)).2.2
     3600 (by decide)⟩
